import Mathlib

/-!
# SnapLog core: singleton lock guard and global-hotkey lifecycle

A shallow embedding of the SnapLog desktop utility's core components:

* the platform modifier translator (`parseModifiers` in `hotkey_darwin.go`
  and `hotkey_windows.go`),
* the key-identifier mapping and hotkey lifecycle (`startHotkeyDetection`,
  `stopHotkeyDetection`, `SetSettings` in `app.go`),
* the singleton lock guard (`acquireLock`, `releaseLock`, `main` in the
  entry-point file),
* the hotkey event-listener goroutine spawned by `startHotkeyDetection`.

System calls (filesystem, process table) are modelled by explicit oracles
in an environment record; everything else is transcribed from the Go
source.
-/

namespace SnapLog

/-! ## Platform modifier translator

The Go code maps abstract modifier names to constants of the third-party
dependency golang.design/x/hotkey.  On the darwin build of that library
the constants are the Carbon modifier flags: `ModCtrl = 0x1000` is the
Control key (Carbon `controlKey`), `ModCmd = 0x100` is the Command key
(`cmdKey`), `ModOption = 0x800` the Option key, `ModShift = 0x200` the
Shift key.  We model them symbolically, keeping that identification. -/

/-- Native macOS modifier keys, as distinguished by the darwin build of
golang.design/x/hotkey (Carbon modifier flags). -/
inductive MacModifier
  | control
  | command
  | option
  | shift
deriving DecidableEq, Repr

/-- Native Windows/Linux modifier keys, as distinguished by the
non-darwin builds of golang.design/x/hotkey (Win32 MOD_* flags on
Windows, X11 masks on Linux; in both, ModCtrl is the Control key). -/
inductive WinModifier
  | control
  | alt
  | shift
  | win
deriving DecidableEq, Repr

/-- Dependency constant: on darwin, hotkey.ModCtrl is Carbon controlKey
(0x1000), the literal Control key. -/
def HotkeyDarwin.ModCtrl : MacModifier := MacModifier.control

/-- Dependency constant: on darwin, hotkey.ModCmd is Carbon cmdKey
(0x100), the Command key. -/
def HotkeyDarwin.ModCmd : MacModifier := MacModifier.command

/-- Dependency constant: on darwin, hotkey.ModOption is Carbon optionKey
(0x800), the Option key. -/
def HotkeyDarwin.ModOption : MacModifier := MacModifier.option

/-- Dependency constant: on darwin, hotkey.ModShift is Carbon shiftKey
(0x200), the Shift key. -/
def HotkeyDarwin.ModShift : MacModifier := MacModifier.shift

/-- Dependency constant: on Windows/Linux, hotkey.ModCtrl is the Control
key (MOD_CONTROL resp. ControlMask). -/
def HotkeyWindows.ModCtrl : WinModifier := WinModifier.control

/-- Dependency constant: on Windows/Linux, hotkey.ModAlt is the Alt key. -/
def HotkeyWindows.ModAlt : WinModifier := WinModifier.alt

/-- Dependency constant: on Windows/Linux, hotkey.ModShift is the Shift
key. -/
def HotkeyWindows.ModShift : WinModifier := WinModifier.shift

namespace Darwin

/-- Embedding of `parseModifiers` from `hotkey_darwin.go` (lines 11-27):
a loop over the modifier strings appending the corresponding
hotkey.Modifier constants; unknown names are skipped.  Note that both
the case for "ctrl" and the case for "cmd"/"meta" append
hotkey.ModCtrl (the source comment reads: Use Ctrl as fallback for
Cmd), and that the case for "alt" appends hotkey.ModOption. -/
def parseModifiers (modStrings : List String) : List MacModifier :=
  modStrings.foldl
    (fun modifiers mod =>
      if mod = "ctrl" then modifiers ++ [HotkeyDarwin.ModCtrl]
      else if mod = "cmd" ∨ mod = "meta" then modifiers ++ [HotkeyDarwin.ModCtrl]
      else if mod = "alt" then modifiers ++ [HotkeyDarwin.ModOption]
      else if mod = "shift" then modifiers ++ [HotkeyDarwin.ModShift]
      else modifiers)
    []

end Darwin

namespace Windows

/-- Embedding of `parseModifiers` from `hotkey_windows.go` (lines 11-26),
the build used on Windows and Linux: "ctrl", "cmd" and "meta" all map to
hotkey.ModCtrl, "alt" to hotkey.ModAlt, "shift" to hotkey.ModShift;
unknown names are skipped. -/
def parseModifiers (modStrings : List String) : List WinModifier :=
  modStrings.foldl
    (fun modifiers mod =>
      if mod = "ctrl" then modifiers ++ [HotkeyWindows.ModCtrl]
      else if mod = "cmd" ∨ mod = "meta" then modifiers ++ [HotkeyWindows.ModCtrl]
      else if mod = "alt" then modifiers ++ [HotkeyWindows.ModAlt]
      else if mod = "shift" then modifiers ++ [HotkeyWindows.ModShift]
      else modifiers)
    []

end Windows

/-! ## Key identifier mapping (app.go, startHotkeyDetection) -/

/-- The native key constants used by `startHotkeyDetection`
(app.go lines 1101-1115). -/
inductive HotkeyKey
  | KeyL
  | KeyS
  | KeyT
  | KeyN
  | KeySpace
deriving DecidableEq, Repr

/-- Embedding of the `switch a.settings.HotkeyKey` statement in
`startHotkeyDetection` (app.go lines 1101-1115): "l", "s", "t", "n",
"space" map to the corresponding keys and every other string falls into
the default case, which yields hotkey.KeyL. -/
def parseKey (hotkeyKey : String) : HotkeyKey :=
  if hotkeyKey = "l" then HotkeyKey.KeyL
  else if hotkeyKey = "s" then HotkeyKey.KeyS
  else if hotkeyKey = "t" then HotkeyKey.KeyT
  else if hotkeyKey = "n" then HotkeyKey.KeyN
  else if hotkeyKey = "space" then HotkeyKey.KeySpace
  else HotkeyKey.KeyL

/-! ## Go string helpers used by the lock guard

`acquireLock` parses the marker file content with
`strconv.Atoi(strings.TrimSpace(string(pidData)))`.  We embed both
helpers.  `goTrimSpace` handles the Latin-1 white-space characters
recognised by Go's unicode.IsSpace (sufficient for the pid strings the
program itself writes); `goAtoi` parses an optional sign followed by
decimal digits and fails on anything else (pid values never reach Go's
int overflow bound, which is therefore not modelled). -/

/-- The Latin-1 white-space characters of Go's unicode.IsSpace. -/
def goIsSpace (c : Char) : Bool :=
  c = ' ' || c = '\t' || c = '\n' || c = '\r' ||
  c = Char.ofNat 0x0B || c = Char.ofNat 0x0C ||
  c = Char.ofNat 0x85 || c = Char.ofNat 0xA0

/-- Embedding of strings.TrimSpace: drop white space from both ends. -/
def goTrimSpace (s : String) : String :=
  String.mk (((s.data.dropWhile goIsSpace).reverse.dropWhile goIsSpace).reverse)

/-- Decimal value of a digit list (most significant first). -/
def digitsToNat (ds : List Char) : Nat :=
  ds.foldl (fun n c => 10 * n + (c.toNat - Char.toNat '0')) 0

/-- Embedding of strconv.Atoi: optional sign, then at least one decimal
digit; any other input is an error (`none`). -/
def goAtoi (s : String) : Option Int :=
  let (neg, digits) :=
    match s.data with
    | '-' :: rest => (true, rest)
    | '+' :: rest => (false, rest)
    | l => (false, l)
  if digits = [] then none
  else if digits.all (fun c => '0' ≤ c && c ≤ '9') then
    some (if neg then -(digitsToNat digits : Int) else (digitsToNat digits : Int))
  else none

/-! ## Lock guard (entry-point file: acquireLock, releaseLock, main) -/

/-- Oracles for the system calls made by `acquireLock`:
whether os.UserConfigDir succeeds, whether os.MkdirAll succeeds, whether
os.ReadFile succeeds on an existing marker, whether WriteString
succeeds, the process table consulted by `isProcessRunning` (the
platform liveness probe), and the current process id (os.Getpid). -/
structure AcquireEnv where
  configDirOk : Bool
  mkdirOk : Bool
  readOk : Bool
  writeOk : Bool
  running : Int → Bool
  curPid : Nat

/-- Embedding of the tail of `acquireLock` (lines 94-113): open the
marker with O_CREATE|O_WRONLY|O_EXCL — which fails when the file still
exists — then write the current pid followed by a newline; if the write
fails the file is closed and removed and acquisition fails. -/
def tryCreateLockFile (env : AcquireEnv) (marker : Option String) :
    Bool × Option String :=
  match marker with
  | some content => (false, some content)
  | none =>
    if env.writeOk then (true, some (toString env.curPid ++ "\n"))
    else (false, none)

/-- Embedding of `acquireLock` (entry-point file, lines 62-114).  The
pair returned is (the Go bool result, the marker-file state after the
call; `none` means the file does not exist).  Control flow follows the
source: failures of os.UserConfigDir or os.MkdirAll return false at
once; if the marker exists and is readable and its trimmed content
parses as an int, a live owner makes acquisition fail with the marker
untouched, while a dead owner makes the stale marker be removed before
the exclusive-create step; unreadable or unparsable markers are left in
place (so the exclusive create then fails). -/
def acquireLock (env : AcquireEnv) (marker : Option String) :
    Bool × Option String :=
  if env.configDirOk = false then (false, marker)
  else if env.mkdirOk = false then (false, marker)
  else
    match marker with
    | some content =>
      if env.readOk then
        match goAtoi (goTrimSpace content) with
        | some pid =>
          if env.running pid then (false, some content)
          else tryCreateLockFile env none
        | none => tryCreateLockFile env (some content)
      else tryCreateLockFile env (some content)
    | none => tryCreateLockFile env none

/-- Result of `releaseLock`: whether the global lockFile handle was
closed, the value of the global lockFile variable afterwards, and the
marker-file state afterwards. -/
structure ReleaseResult where
  closedHandle : Bool
  lockFileVar : Option Unit
  marker : Option String
deriving DecidableEq, Repr

/-- Embedding of `releaseLock` (entry-point file, lines 183-193): if the
global lockFile handle is non-nil it is closed and set to nil; then,
whenever os.UserConfigDir succeeds, os.Remove deletes the marker file —
unconditionally, whether or not a handle was held. -/
def releaseLock (lockFileVar : Option Unit) (configDirOk : Bool)
    (marker : Option String) : ReleaseResult :=
  { closedHandle := lockFileVar.isSome
    lockFileVar := none
    marker := if configDirOk then none else marker }

/-- The externally visible actions of `main` that the claims mention. -/
inductive MainAction
  | notifyAlreadyRunning
  | runApp
deriving DecidableEq, Repr

/-- Outcome of running `main`: the actions performed, the process exit
status, and the final marker-file state. -/
structure MainResult where
  actions : List MainAction
  exitCode : Nat
  marker : Option String
deriving DecidableEq, Repr

/-- Embedding of `main` (entry-point file, lines 26-59): if
`acquireLock` returns false, `showAlreadyRunningNotification` runs and
the process exits with status 0 (os.Exit(0) — the deferred releaseLock
is registered only after this branch, so it does not run); otherwise
the application runs, and on return the deferred `releaseLock` runs
with the live handle and the process exits with status 0. -/
def mainStartup (env : AcquireEnv) (marker : Option String) : MainResult :=
  let res := acquireLock env marker
  if res.1 = false then
    { actions := [MainAction.notifyAlreadyRunning]
      exitCode := 0
      marker := res.2 }
  else
    { actions := [MainAction.runApp]
      exitCode := 0
      marker := (releaseLock (some ()) env.configDirOk res.2).marker }

/-! ## App hotkey lifecycle (app.go, lines 1096-1172)

The sequential model of the App's hotkey state.  The native layer is
modelled by a counter handing out fresh registration tokens and a list
of the tokens currently registered with the OS (`activeRegs`: a token
is appended by hotkey.Register and erased by hotkey.Unregister).  The
singleton lock acquired by `main` before the App starts is carried as a
flag so that theorems can state that the hotkey code never touches it.
The spawned statements (`go a.startHotkeyDetection()`) are modelled as
running to completion before the next operation, matching the
serialized-reconfiguration reading of the source. -/

/-- Embedding of the Settings struct (app.go lines 188-193). -/
structure Settings where
  hotkeyModifiers : List String
  hotkeyKey : String
  firstRun : Bool
  theme : String
deriving DecidableEq, Repr

/-- The default settings installed by NewApp (app.go lines 245-255). -/
def defaultSettings : Settings :=
  { hotkeyModifiers := ["ctrl", "shift"]
    hotkeyKey := "l"
    firstRun := true
    theme := "dark" }

/-- The App state relevant to the hotkey lifecycle: the settings, the
packageHotkey field (`some tok` models a non-nil *hotkey.Hotkey), the
key the current registration was created with, the tokens currently
registered with the native layer, a fresh-token counter, whether the
process still holds the singleton lock, the process exit status
(`none` while the process is running), and the log. -/
structure AppState where
  settings : Settings
  packageHotkey : Option Nat
  registeredKey : Option HotkeyKey
  activeRegs : List Nat
  nextHotkeyId : Nat
  lockHeld : Bool
  exitCode : Option Nat
  log : List String
deriving DecidableEq, Repr

/-- App state right after NewApp and main's lock acquisition. -/
def initialAppState (settings : Settings) : AppState :=
  { settings := settings
    packageHotkey := none
    registeredKey := none
    activeRegs := []
    nextHotkeyId := 1
    lockHeld := true
    exitCode := none
    log := [] }

/-- The first diagnostic logged when hotkey.Register fails
(app.go line 1120; the source appends the error text to it). -/
def hotkeyRegisterFailedMsg : String := "Failed to register hotkey"

/-- The second diagnostic logged when hotkey.Register fails
(app.go line 1121), naming the likely remedy. -/
def accessibilityNoteMsg : String :=
  "Note: On macOS, this requires accessibility permissions."

/-- Embedding of `startHotkeyDetection` (app.go lines 1096-1137).
`registerOk` is the oracle for whether hk.Register() succeeds.  The
modifiers and key are computed from the settings unconditionally (the
key via `parseKey`, which never rejects); on registration failure the
method logs two diagnostics and returns, leaving every other field of
the App — and the process itself — untouched; on success the fresh
registration token is stored in packageHotkey and the listener
goroutine is spawned. -/
def startHotkeyDetection (registerOk : Bool) (s : AppState) : AppState :=
  let key := parseKey s.settings.hotkeyKey
  if registerOk = false then
    { s with log := s.log ++ [hotkeyRegisterFailedMsg, accessibilityNoteMsg] }
  else
    { s with
        packageHotkey := some s.nextHotkeyId
        registeredKey := some key
        activeRegs := s.activeRegs ++ [s.nextHotkeyId]
        nextHotkeyId := s.nextHotkeyId + 1
        log := s.log ++ ["Hotkey registered"] }

/-- Embedding of `stopHotkeyDetection` (app.go lines 1139-1145): when
packageHotkey is non-nil, Unregister the token and set the field to
nil; otherwise do nothing. -/
def stopHotkeyDetection (s : AppState) : AppState :=
  match s.packageHotkey with
  | some tok =>
    { s with
        packageHotkey := none
        registeredKey := none
        activeRegs := s.activeRegs.erase tok
        log := s.log ++ ["Unregistering hotkey..."] }
  | none => s

/-- The error message with which SetSettings returns when saveSettings
fails (app.go line 1165; the source appends the underlying error). -/
def saveSettingsFailedMsg : String := "failed to save settings"

/-- Embedding of `SetSettings` (app.go lines 1160-1172): install the
new settings with FirstRun forced to false; if saveSettings fails
(oracle `saveOk`), return the error at once — without touching the
hotkey; otherwise stop the old hotkey detection, spawn
startHotkeyDetection for the new binding (oracle `registerOk` for the
native registration), and return nil.  The returned pair is (the Go
error result, the App state afterwards). -/
def SetSettings (newSettings : Settings) (saveOk registerOk : Bool)
    (s : AppState) : Option String × AppState :=
  let s1 := { s with settings := { newSettings with firstRun := false } }
  if saveOk = false then (some saveSettingsFailedMsg, s1)
  else (none, startHotkeyDetection registerOk (stopHotkeyDetection s1))

/-- The operations through which the running program reaches the hotkey
registrar after startup: a settings change from the UI collaborator
(the reconfiguration path) or the shutdown path, which calls
stopHotkeyDetection. -/
inductive AppOp
  | setSettings (newSettings : Settings) (saveOk : Bool) (registerOk : Bool)
  | shutdown
deriving Repr

/-- One operation of the running program. -/
def applyOp : AppOp → AppState → AppState
  | AppOp.setSettings ns saveOk registerOk, s =>
    (SetSettings ns saveOk registerOk s).2
  | AppOp.shutdown, s => stopHotkeyDetection s

/-- All states visited while running a sequence of operations,
starting state included. -/
def statesOf (s : AppState) : List AppOp → List AppState
  | [] => [s]
  | op :: rest => s :: statesOf (applyOp op s) rest

/-- The registration invariant: the packageHotkey field and the native
layer agree — a non-nil packageHotkey holds the single currently
registered token, and a nil packageHotkey means nothing is registered. -/
def RegInvariant (s : AppState) : Prop :=
  match s.packageHotkey with
  | some tok => s.activeRegs = [tok]
  | none => s.activeRegs = []

/-! ## Event-listener goroutine (app.go, lines 1128-1136)

The goroutine spawned by startHotkeyDetection is
a for loop whose select statement has a single case, receiving from
hk.Keydown() and then invoking ShowWindow.  Nothing in the loop body
observes a stop request and no statement leaves the loop.  We model its
execution against a trace of outside events: hotkey keydowns and stop
requests (what stopHotkeyDetection would have to deliver). -/

/-- Events the listener goroutine could be confronted with. -/
inductive ListenerEvent
  | keydown
  | stopRequested
deriving DecidableEq, Repr

/-- Listener goroutine states. -/
inductive ListenerState
  | running
  | exitedState
deriving DecidableEq, Repr

/-- One confrontation of the goroutine with an event, returning the next
state and whether ShowWindow was invoked.  Transcribed from the loop
body: a received keydown fires ShowWindow and the loop continues; a
stop request matches no select case and no break or return exists, so
the state is unchanged and nothing fires. -/
def listenerStep (s : ListenerState) (e : ListenerEvent) :
    ListenerState × Bool :=
  match s, e with
  | ListenerState.running, ListenerEvent.keydown => (ListenerState.running, true)
  | ListenerState.running, ListenerEvent.stopRequested =>
    (ListenerState.running, false)
  | ListenerState.exitedState, _ => (ListenerState.exitedState, false)

/-- Run the goroutine over a trace.  `stopSeen` records whether a stop
request has already been delivered.  Returns the final state, the total
number of ShowWindow invocations, and the number of ShowWindow
invocations that happened after a stop request. -/
def listenerExec : ListenerState → Bool → List ListenerEvent →
    ListenerState × Nat × Nat
  | s, _, [] => (s, 0, 0)
  | s, stopSeen, e :: rest =>
    let step := listenerStep s e
    let stopSeen2 := stopSeen || (e = ListenerEvent.stopRequested)
    let tail := listenerExec step.1 stopSeen2 rest
    (tail.1,
     (if step.2 then 1 else 0) + tail.2.1,
     (if step.2 && stopSeen then 1 else 0) + tail.2.2)

/-! ## Helper lemmas on the lock guard -/

/-- If the marker exists, its content parses to a pid whose owner is
alive, and the directory and read system calls succeed, acquireLock
fails and leaves the marker unchanged. -/
theorem acquireLock_alive_eq (env : AcquireEnv) (content : String) (pid : Int)
    (hcfg : env.configDirOk = true) (hmk : env.mkdirOk = true)
    (hrd : env.readOk = true)
    (hparse : goAtoi (goTrimSpace content) = some pid)
    (halive : env.running pid = true) :
    acquireLock env (some content) = (false, some content) := by
  simp [acquireLock, hcfg, hmk, hrd, hparse, halive]

/-- If the marker exists, its content parses to a pid whose owner is not
running, and the system calls succeed, acquireLock succeeds and the
marker afterwards holds the current pid followed by a newline. -/
theorem acquireLock_stale_eq (env : AcquireEnv) (content : String) (pid : Int)
    (hcfg : env.configDirOk = true) (hmk : env.mkdirOk = true)
    (hrd : env.readOk = true) (hwr : env.writeOk = true)
    (hparse : goAtoi (goTrimSpace content) = some pid)
    (hdead : env.running pid = false) :
    acquireLock env (some content) =
      (true, some (toString env.curPid ++ "\n")) := by
  simp [acquireLock, tryCreateLockFile, hcfg, hmk, hrd, hwr, hparse, hdead]

/-! ## Claim theorems -/

/-- Claim C1 (code bug evaluation): for the abstract modifier input
["ctrl", "shift"], the darwin translator produces
[hotkey.ModCtrl, hotkey.ModShift] — on macOS the literal Control
modifier, not the Command modifier (hotkey.ModCmd), contrary to the
README's documented Cmd+Shift+L macOS combination — while the
Windows/Linux translator produces [Control, Shift] as documented. -/
theorem parseModifiers_ctrl_shift_eval :
    Darwin.parseModifiers ["ctrl", "shift"] =
      [HotkeyDarwin.ModCtrl, HotkeyDarwin.ModShift] ∧
    HotkeyDarwin.ModCtrl = MacModifier.control ∧
    Darwin.parseModifiers ["ctrl", "shift"] ≠
      [HotkeyDarwin.ModCmd, HotkeyDarwin.ModShift] ∧
    Windows.parseModifiers ["ctrl", "shift"] =
      [HotkeyWindows.ModCtrl, HotkeyWindows.ModShift] :=
  ⟨by decide, rfl, by decide, by decide⟩

/-- Claim C2: acquireLock on an existing marker reads and parses the
stored pid and probes liveness; a live owner makes it fail with the
marker unchanged, and a dead owner makes it succeed with the marker
afterwards containing the new acquirer's pid. -/
theorem acquireLock_spec (env : AcquireEnv) (content : String) (pid : Int)
    (hcfg : env.configDirOk = true) (hmk : env.mkdirOk = true)
    (hrd : env.readOk = true) (hwr : env.writeOk = true)
    (hparse : goAtoi (goTrimSpace content) = some pid) :
    (env.running pid = true →
      acquireLock env (some content) = (false, some content)) ∧
    (env.running pid = false →
      acquireLock env (some content) =
        (true, some (toString env.curPid ++ "\n"))) :=
  ⟨fun halive => acquireLock_alive_eq env content pid hcfg hmk hrd hparse halive,
   fun hdead =>
     acquireLock_stale_eq env content pid hcfg hmk hrd hwr hparse hdead⟩

/-- Claim C2 witness: a marker storing pid 17 with no process running
is reclaimed by the acquirer with pid 42, whose pid replaces 17. -/
theorem acquireLock_spec_witness :
    acquireLock ⟨true, true, true, true, fun _ => false, 42⟩ (some "17\n") =
      (true, some (toString (42 : Nat) ++ "\n")) :=
  (acquireLock_spec ⟨true, true, true, true, fun _ => false, 42⟩ "17\n" 17
    rfl rfl rfl rfl (by decide)).2 rfl

/-- Claim C3: when lock acquisition fails because the marker's stored
pid belongs to a live process, main shows the already-running
notification and exits with status code 0, leaving the marker in
place. -/
theorem main_alreadyRunning_exitsZero (env : AcquireEnv) (content : String)
    (pid : Int)
    (hcfg : env.configDirOk = true) (hmk : env.mkdirOk = true)
    (hrd : env.readOk = true)
    (hparse : goAtoi (goTrimSpace content) = some pid)
    (halive : env.running pid = true) :
    mainStartup env (some content) =
      { actions := [MainAction.notifyAlreadyRunning]
        exitCode := 0
        marker := some content } := by
  have h := acquireLock_alive_eq env content pid hcfg hmk hrd hparse halive
  simp [mainStartup, h]

/-- Claim C3 witness: with a marker owned by live pid 17, main notifies
and exits 0. -/
theorem main_alreadyRunning_exitsZero_witness :
    mainStartup ⟨true, true, true, true, fun _ => true, 42⟩ (some "17\n") =
      { actions := [MainAction.notifyAlreadyRunning]
        exitCode := 0
        marker := some "17\n" } :=
  main_alreadyRunning_exitsZero ⟨true, true, true, true, fun _ => true, 42⟩
    "17\n" 17 rfl rfl rfl (by decide) rfl

/-- stopHotkeyDetection leaves the packageHotkey field nil and — under
the registration invariant — the native layer with nothing
registered. -/
theorem regInvariant_stop (s : AppState) (h : RegInvariant s) :
    (stopHotkeyDetection s).packageHotkey = none ∧
    (stopHotkeyDetection s).activeRegs = [] := by
  unfold RegInvariant at h
  unfold stopHotkeyDetection
  cases hp : s.packageHotkey with
  | none => rw [hp] at h; simp [hp, h]
  | some tok => rw [hp] at h; simp [hp, h]

/-- startHotkeyDetection applied to a state with no registration
establishes the registration invariant, whether or not the native
registration succeeds. -/
theorem regInvariant_start (b : Bool) (s : AppState)
    (hp : s.packageHotkey = none) (ha : s.activeRegs = []) :
    RegInvariant (startHotkeyDetection b s) := by
  unfold startHotkeyDetection RegInvariant
  cases b with
  | false => simp [hp, ha]
  | true => simp [hp, ha]

/-- SetSettings preserves the registration invariant. -/
theorem regInvariant_setSettings (ns : Settings) (sv rg : Bool)
    (s : AppState) (h : RegInvariant s) :
    RegInvariant (SetSettings ns sv rg s).2 := by
  unfold SetSettings
  cases sv with
  | false =>
    unfold RegInvariant at h ⊢
    simpa using h
  | true =>
    have h1 : RegInvariant { s with settings := { ns with firstRun := false } } := by
      unfold RegInvariant at h ⊢
      simpa using h
    have h2 := regInvariant_stop _ h1
    simpa using regInvariant_start rg _ h2.1 h2.2

/-- Every program operation preserves the registration invariant. -/
theorem regInvariant_applyOp (op : AppOp) (s : AppState)
    (h : RegInvariant s) : RegInvariant (applyOp op s) := by
  cases op with
  | setSettings ns sv rg => exact regInvariant_setSettings ns sv rg s h
  | shutdown =>
    have h2 := regInvariant_stop s h
    unfold RegInvariant applyOp
    simp [h2.1, h2.2]

/-- Under the registration invariant, at most one native registration
is active. -/
theorem regInvariant_le_one (s : AppState) (h : RegInvariant s) :
    s.activeRegs.length ≤ 1 := by
  unfold RegInvariant at h
  cases hp : s.packageHotkey with
  | none => rw [hp] at h; simp [h]
  | some tok => rw [hp] at h; simp [h]

/-- The registration invariant holds at every state visited while
running a sequence of operations from an invariant state. -/
theorem regInvariant_statesOf (ops : List AppOp) (s : AppState)
    (h : RegInvariant s) : ∀ t ∈ statesOf s ops, RegInvariant t := by
  induction ops generalizing s with
  | nil =>
    intro t ht
    simp [statesOf] at ht
    exact ht ▸ h
  | cons op rest ih =>
    intro t ht
    simp only [statesOf, List.mem_cons] at ht
    rcases ht with rfl | ht
    · exact h
    · exact ih (applyOp op s) (regInvariant_applyOp op s h) t ht

/-- Claim C4: for every sequence of reconfiguration and shutdown
operations after startup, every state the program passes through has
at most one native hotkey registration active. -/
theorem hotkey_at_most_one_registration (settings0 : Settings)
    (startupRegisterOk : Bool) (ops : List AppOp) (t : AppState)
    (ht : t ∈ statesOf
      (startHotkeyDetection startupRegisterOk (initialAppState settings0))
      ops) :
    t.activeRegs.length ≤ 1 := by
  have h0 : RegInvariant
      (startHotkeyDetection startupRegisterOk (initialAppState settings0)) :=
    regInvariant_start startupRegisterOk (initialAppState settings0) rfl rfl
  exact regInvariant_le_one t (regInvariant_statesOf ops _ h0 t ht)

/-- Claim C4 witness: the startup state of a run that goes on to
reconfigure once has at most one active registration. -/
theorem hotkey_at_most_one_registration_witness :
    (startHotkeyDetection true (initialAppState defaultSettings)).activeRegs.length ≤ 1 :=
  hotkey_at_most_one_registration defaultSettings true
    [AppOp.setSettings defaultSettings true true]
    (startHotkeyDetection true (initialAppState defaultSettings))
    (by simp [statesOf])

/-- Claim C5: when the native registration fails, startHotkeyDetection
leaves the process running (exit status unchanged), the singleton lock
held, and the registration state untouched, and logs diagnostics
including the note naming the likely remedy (accessibility
permissions). -/
theorem registrationFailure_nonfatal (s : AppState) :
    (startHotkeyDetection false s).exitCode = s.exitCode ∧
    (startHotkeyDetection false s).lockHeld = s.lockHeld ∧
    (startHotkeyDetection false s).packageHotkey = s.packageHotkey ∧
    (startHotkeyDetection false s).activeRegs = s.activeRegs ∧
    hotkeyRegisterFailedMsg ∈ (startHotkeyDetection false s).log ∧
    accessibilityNoteMsg ∈ (startHotkeyDetection false s).log := by
  unfold startHotkeyDetection
  simp

/-- Claim C6 counterexample: a reconfiguration whose native
registration of the new binding fails still returns nil (no error) to
the UI collaborator — the failure is not surfaced in the result of
SetSettings, which ended with no hotkey registered. -/
theorem setSettings_swallows_registration_failure_cex :
    (SetSettings defaultSettings true false
        (initialAppState defaultSettings)).1 = none ∧
    (SetSettings defaultSettings true false
        (initialAppState defaultSettings)).2.packageHotkey = none := by
  constructor <;> rfl

/-- Claim C6 amended: the error result of SetSettings reflects only the
settings-save step; it is the save-failure message when saving fails
and nil otherwise, regardless of whether registering the new binding
succeeds. -/
theorem setSettings_error_result (ns : Settings) (saveOk registerOk : Bool)
    (s : AppState) :
    (SetSettings ns saveOk registerOk s).1 =
      (if saveOk then none else some saveSettingsFailedMsg) := by
  cases saveOk <;> simp [SetSettings]

/-- Claim C7 counterexample: with a stop already requested, an in-flight
keydown still makes the listener invoke ShowWindow (one fire after the
stop), and the listener is still running at the end of the trace. -/
theorem listener_fires_after_stop_cex :
    listenerExec ListenerState.running false
        [ListenerEvent.stopRequested, ListenerEvent.keydown] =
      (ListenerState.running, 1, 1) := by
  decide

/-- Claim C7 amended: the listener goroutine never exits on any trace of
events, fires ShowWindow once per keydown received regardless of stop
requests, and — when a stop has been requested — still fires on every
subsequent keydown. -/
theorem listener_never_exits_fires_all (trace : List ListenerEvent)
    (stopSeen : Bool) :
    (listenerExec ListenerState.running stopSeen trace).1 =
      ListenerState.running ∧
    (listenerExec ListenerState.running stopSeen trace).2.1 =
      trace.countP (fun e => e = ListenerEvent.keydown) ∧
    (listenerExec ListenerState.running true trace).2.2 =
      trace.countP (fun e => e = ListenerEvent.keydown) := by
  induction trace generalizing stopSeen with
  | nil => simp [listenerExec]
  | cons e rest ih =>
    cases e with
    | keydown =>
      have h := ih stopSeen
      have htrue := ih true
      simp [listenerExec, listenerStep, List.countP_cons, h.1, h.2.1,
        htrue.2.2, htrue.2.1, Nat.add_comm]
    | stopRequested =>
      have htrue := ih true
      simp [listenerExec, listenerStep, List.countP_cons, htrue.1,
        htrue.2.1, htrue.2.2]

/-- Claim C8 counterexample: when os.UserConfigDir fails (a marker IO
failure, no marker file involved at all), main still shows the
already-running notification and exits with status 0 — not with a
non-zero code. -/
theorem markerIOFailure_exitsZero_cex :
    mainStartup ⟨false, true, true, true, fun _ => false, 42⟩ none =
      { actions := [MainAction.notifyAlreadyRunning]
        exitCode := 0
        marker := none } := by
  rfl

/-- Claim C8 amended: main always exits with status 0; every acquisition
failure — marker IO failure included — takes the same
notify-and-exit-0 path as the already-running case. -/
theorem main_always_exitsZero (env : AcquireEnv) (marker : Option String) :
    (mainStartup env marker).exitCode = 0 ∧
    (mainStartup env marker).actions =
      (if (acquireLock env marker).1 then [MainAction.runApp]
       else [MainAction.notifyAlreadyRunning]) := by
  unfold mainStartup
  cases h : (acquireLock env marker).1 <;> simp [h]

/-- Claim C9 counterexample: releaseLock invoked with a nil handle still
deletes the marker file (here one owned by pid 999), so it is not a
no-op on a nil handle. -/
theorem releaseLock_nilHandle_deletes_cex :
    releaseLock none true (some "999\n") =
      { closedHandle := false, lockFileVar := none, marker := none } := rfl

/-- Claim C9 amended: releaseLock closes the handle exactly when one is
held and is safe to call on a nil handle, but it deletes the marker
file whenever the config directory resolves, independently of whether a
handle is held — the deletion on a nil handle is identical to the
deletion on a live one. -/
theorem releaseLock_deletes_regardless_of_handle (configDirOk : Bool)
    (marker : Option String) :
    (releaseLock none configDirOk marker).marker =
      (releaseLock (some ()) configDirOk marker).marker ∧
    (releaseLock none configDirOk marker).marker =
      (if configDirOk then none else marker) ∧
    (releaseLock none configDirOk marker).closedHandle = false ∧
    (releaseLock (some ()) configDirOk marker).closedHandle = true := by
  simp [releaseLock]

/-- Claim C10: the key-identifier mapping is total — "l", "s", "t", "n",
"space" map to their native keys and every other string (the empty
string included) falls back to KeyL — and startHotkeyDetection always
proceeds to register with the mapped key, never rejecting a key
identifier. -/
theorem parseKey_total_with_fallback (s : String)
    (h : s ∉ (["l", "s", "t", "n", "space"] : List String)) :
    parseKey "l" = HotkeyKey.KeyL ∧ parseKey "s" = HotkeyKey.KeyS ∧
    parseKey "t" = HotkeyKey.KeyT ∧ parseKey "n" = HotkeyKey.KeyN ∧
    parseKey "space" = HotkeyKey.KeySpace ∧ parseKey s = HotkeyKey.KeyL ∧
    (∀ st : AppState, (startHotkeyDetection true st).registeredKey =
      some (parseKey st.settings.hotkeyKey)) := by
  simp only [List.mem_cons, List.mem_singleton, not_or] at h
  obtain ⟨h1, h2, h3, h4, h5, -⟩ := h
  refine ⟨by decide, by decide, by decide, by decide, by decide, ?_, ?_⟩
  · simp [parseKey, h1, h2, h3, h4, h5]
  · intro st
    simp [startHotkeyDetection]

/-- Claim C10 witness: the empty key identifier falls back to KeyL. -/
theorem parseKey_total_with_fallback_witness :
    parseKey "" = HotkeyKey.KeyL :=
  (parseKey_total_with_fallback "" (by decide)).2.2.2.2.2.1

end SnapLog
